import Mathlib

set_option maxRecDepth 4000

/-
Verification of the PaddleDTX two-party vertical logistic-regression Learner
(dai/mpc/learners/logic_reg_vl, file root.go in the sources) and of the byte
padding helper PadStart (crypto package).

The Learner is embedded shallowly: the Learner struct becomes a Lean
structure holding the fields that the advance state machine reads or writes
(id, address, parties, homoPub, loopRound, fileRows, status).  The psi
engine, the training process, the rpc port and the result port live in other
files of the repository; their calls are modelled through an Env record that
supplies the return value of each call, and every externally visible action
of one advance step (SaveResult calls, locally self-posted messages, sends
to the peer, mutations of the psi engine and of the training process) is
recorded in an ordered effect list.  Machine integers: loopRound is a Go
uint64, modelled as Nat with explicit wrap-around where the code computes
loopRound + 1.
-/

namespace PaddleDTX

/-- Byte strings, modelled as lists of naturals. -/
abbrev Bytes := List Nat

/-- Rows of the sample file, as returned by psi.IntersectParts. -/
abbrev Rows := List (List String)

/-- The wrap of a Go uint64 increment: the guards of the source compute
loopRound + 1 on a uint64. -/
def succ64 (n : Nat) : Nat := (n + 1) % (2 ^ 64)

/-- Message type discriminator of pbLogicRegVl.Message.  MsgOther stands for
any value of the open protobuf enum that is none of the enumerated cases;
the switch of advance has no case for it. -/
inductive MessageType where
  | MsgPsiEnc
  | MsgPsiAskReEnc
  | MsgPsiReEnc
  | MsgPsiIntersect
  | MsgTrainHup
  | MsgHomoPubkey
  | MsgTrainLoop
  | MsgTrainCalLocalGradCost
  | MsgTrainPartBytes
  | MsgTrainCalEncGradCost
  | MsgTrainEncGradCost
  | MsgTrainDecLocalGradCost
  | MsgTrainGradAndCost
  | MsgTrainUpdCostGrad
  | MsgTrainStatus
  | MsgTrainCheckStatus
  | MsgTrainModels
  | MsgOther
deriving DecidableEq, Inhabited

/-- pb.VLPsiReEncIDsRequest. -/
structure VLPsiReEncIDsRequest where
  TaskID : String := ""
  EncIDs : Bytes := []
deriving DecidableEq, Inhabited

/-- pb.VLPsiReEncIDsResponse. -/
structure VLPsiReEncIDsResponse where
  TaskID : String := ""
  ReEncIDs : Bytes := []
deriving DecidableEq, Inhabited

/-- pbLogicRegVl.Message.  Absent protobuf fields default to zero values. -/
structure Message where
  mType : MessageType := .MsgOther
  From : String := ""
  To : String := ""
  LoopRound : Nat := 0
  VlLPsiReEncIDsReq : VLPsiReEncIDsRequest := {}
  VlLPsiReEncIDsResp : VLPsiReEncIDsResponse := {}
  HomoPubkey : Bytes := []
  PartBytes : Bytes := []
  EncGradFromOther : Bytes := []
  EncCostFromOther : Bytes := []
  GradBytes : Bytes := []
  CostBytes : Bytes := []
  Stopped : Bool := false
deriving DecidableEq, Inhabited

/-- pb.TrainResponse. -/
structure TrainResponse where
  TaskID : String := ""
  Payload : Bytes := []
deriving DecidableEq, Inhabited

/-- pbCom.TrainTaskResult. -/
structure TrainTaskResult where
  TaskID : String := ""
  Success : Bool := false
  Model : Bytes := []
  ErrMsg : String := ""
deriving DecidableEq, Inhabited

/-- Error codes of errorx as used by this file: ErrCodeParam for Unmarshal
failures in Advance, ErrCodeInternal for Marshal failures, plain for errors
coming back from the psi engine, the process or the rpc port. -/
inductive ErrCode where
  | param
  | internal
  | plain
deriving DecidableEq, Inhabited

/-- A Go error value together with its errorx code when one was attached. -/
structure Err where
  code : ErrCode := .plain
  msg : String := ""
deriving DecidableEq, Inhabited

/-- learnerStatusType. -/
inductive LearnerStatus where
  | startPSI
  | endPSI
  | startTrain
  | endTrain
deriving DecidableEq, Inhabited

/-- Position of a status in the chain StartPSI, EndPSI, StartTrain,
EndTrain. -/
def statusIdx : LearnerStatus → Nat
  | .startPSI => 0
  | .endPSI => 1
  | .startTrain => 2
  | .endTrain => 3

/-- The fields of the Learner struct that advance reads or writes.  The psi
engine, the process, the rpc port and the result port are external objects:
their calls are mediated by Env and recorded as effects. -/
structure Learner where
  id : String
  address : String
  parties : List String
  homoPub : Bytes
  loopRound : Nat
  fileRows : Rows
  status : LearnerStatus
deriving DecidableEq, Inhabited

/-- l.parties[0]; Go indexing presumes a nonempty parties list, NewLearner
is always called with exactly one peer. -/
def Learner.party0 (l : Learner) : String := l.parties.headD ""

/-- One externally visible action of an advance step, in program order:
a SaveResult call on the result port, a locally self-posted message (the
go closures re-entering advance), a send to the peer through
sendMessageWithRetry, or a mutating call on the psi engine or the training
process. -/
inductive Effect where
  | saveResult (r : TrainTaskResult)
  | enqueue (m : Message)
  | send (m : Message) (addr : String)
  | psiSetReEnc (party : String) (b : Bytes)
  | psiSetOtherFinal (party : String) (b : Bytes)
  | procSetHomoPub (b : Bytes)
  | procInit (rows : Rows)
  | procUpRound (r : Nat)
  | procCalLocalGradCost
  | procSetPartBytes (b : Bytes) (r : Nat)
  | procCalEncGradCost
  | procSetEncGradCost (g c : Bytes)
  | procDecGradCost
  | procSetGradCost (g c : Bytes)
  | procUpdateCostGrad
  | procSetOtherStatus (b : Bool)
deriving DecidableEq, Inhabited

/-- Return values of the calls advance makes on its collaborators (psi
engine, training process, rpc port, protobuf codec).  Those objects live in
other files of the repository; one Env fixes the outcome of each call made
during one advance step. -/
structure Env where
  encryptSampleIDSet : Except Err Bytes
  setReEncryptIDSet : String → Bytes → Except Err Bool
  reEncryptIDSet : String → Bytes → Except Err Bytes
  setOtherFinalReEncryptIDSet : String → Bytes → Except Err Unit
  intersectParts : Except Err (Bool × Rows)
  procInit : Rows → Except Err Unit
  upRound : Nat → Except Err Unit
  calLocalGradientAndCost : Except Err (Bytes × Nat)
  setPartBytesFromOther : Bytes → Nat → Except Err Unit
  calEncGradientAndCost : Except Err (Bytes × Bytes × Nat)
  setEncGradientAndCostFromOther : Bytes → Bytes → Nat
  decGradientAndCost : Except Err (Bytes × Bytes × Nat)
  setGradientAndCostFromOther : Bytes → Bytes → Nat
  updateCostAndGradient : Except Err Bool
  stop : Bool × Bool
  getTrainModels : Except Err Bytes
  marshal : Message → Except String Bytes
  unmarshal : Bytes → Except String Message
  sendWithRetry : Message → String → Except Err Message

/-- Result of one advance step: the updated Learner fields, the ordered
effect list, and the Go return pair, where .error e stands for the code
returning (nil, err) and .ok r for returning (r, nil). -/
structure StepResult where
  state : Learner
  effects : List Effect
  output : Except Err (Option TrainResponse)

/-- The TrainTaskResult that handleError builds: TaskID and ErrMsg only. -/
def errResult (id : String) (e : Err) : TrainTaskResult :=
  { TaskID := id, ErrMsg := e.msg }

/-- case MsgPsiEnc, lines 165 to 181. -/
def handlePsiEnc (l : Learner) (env : Env) : StepResult :=
  match env.encryptSampleIDSet with
  | .error e => ⟨l, [.saveResult (errResult l.id e)], .error e⟩
  | .ok encIDs =>
      ⟨l, [.enqueue { mType := .MsgPsiAskReEnc,
                      VlLPsiReEncIDsReq := { TaskID := l.id, EncIDs := encIDs } }],
        .ok none⟩

/-- case MsgPsiAskReEnc, lines 183 to 208. -/
def handlePsiAskReEnc (l : Learner) (m : Message) (env : Env) : StepResult :=
  let newMess : Message :=
    { mType := .MsgPsiReEnc, VlLPsiReEncIDsReq := m.VlLPsiReEncIDsReq,
      LoopRound := l.loopRound }
  match env.sendWithRetry newMess l.party0 with
  | .error e =>
      ⟨l, [.send newMess l.party0, .saveResult (errResult l.id e)], .error e⟩
  | .ok reM =>
      match env.setReEncryptIDSet l.party0 reM.VlLPsiReEncIDsResp.ReEncIDs with
      | .error e =>
          ⟨l, [.send newMess l.party0,
               .psiSetReEnc l.party0 reM.VlLPsiReEncIDsResp.ReEncIDs,
               .saveResult (errResult l.id e)], .error e⟩
      | .ok done =>
          if done then
            ⟨l, [.send newMess l.party0,
                 .psiSetReEnc l.party0 reM.VlLPsiReEncIDsResp.ReEncIDs,
                 .enqueue { mType := .MsgPsiIntersect }], .ok none⟩
          else
            ⟨l, [.send newMess l.party0,
                 .psiSetReEnc l.party0 reM.VlLPsiReEncIDsResp.ReEncIDs], .ok none⟩

/-- case MsgPsiReEnc, lines 210 to 248.  On a marshal failure the error is
wrapped with ErrCodeInternal.  A failure of SetOtherFinalReEncryptIDSet
calls handleError but still returns the response with nil error. -/
def handlePsiReEnc (l : Learner) (m : Message) (env : Env) : StepResult :=
  match env.reEncryptIDSet m.From m.VlLPsiReEncIDsReq.EncIDs with
  | .error e => ⟨l, [.saveResult (errResult l.id e)], .error e⟩
  | .ok reEncIDs =>
      let retM : Message :=
        { mType := .MsgPsiReEnc, To := m.From, From := l.address,
          VlLPsiReEncIDsResp := { TaskID := l.id, ReEncIDs := reEncIDs } }
      match env.marshal retM with
      | .error s =>
          let e : Err := { code := .internal, msg := "failed to Marshal payload: " ++ s }
          ⟨l, [.saveResult (errResult l.id e)], .error e⟩
      | .ok payload =>
          let ret : TrainResponse := { TaskID := l.id, Payload := payload }
          match env.setOtherFinalReEncryptIDSet m.From reEncIDs with
          | .error e =>
              ⟨l, [.psiSetOtherFinal m.From reEncIDs,
                   .saveResult (errResult l.id e)], .ok (some ret)⟩
          | .ok _ =>
              ⟨l, [.psiSetOtherFinal m.From reEncIDs,
                   .enqueue { mType := .MsgPsiIntersect }], .ok (some ret)⟩

/-- case MsgPsiIntersect, lines 250 to 266.  When IntersectParts reports
done the fileRows are stored and status is set to EndPSI, whatever the
current status is. -/
def handlePsiIntersect (l : Learner) (env : Env) : StepResult :=
  match env.intersectParts with
  | .error e => ⟨l, [.saveResult (errResult l.id e)], .error e⟩
  | .ok (done, newRows) =>
      if done then
        ⟨{ l with fileRows := newRows, status := .endPSI },
          [.enqueue { mType := .MsgTrainHup }], .ok none⟩
      else ⟨l, [], .ok none⟩

/-- case MsgTrainHup, lines 268 to 297: guarded by status == EndPSI; the
status is set to StartTrain before process.init runs, so the error returns
leave it at StartTrain. -/
def handleTrainHup (l : Learner) (env : Env) : StepResult :=
  if l.status = .endPSI then
    let l1 := { l with status := LearnerStatus.startTrain }
    match env.procInit l1.fileRows with
    | .error e =>
        ⟨l1, [.procInit l1.fileRows, .saveResult (errResult l.id e)], .error e⟩
    | .ok _ =>
        let m1 : Message :=
          { mType := .MsgHomoPubkey, HomoPubkey := l.homoPub, LoopRound := l.loopRound }
        match env.sendWithRetry m1 l.party0 with
        | .error e =>
            ⟨l1, [.procInit l1.fileRows, .send m1 l.party0,
                  .saveResult (errResult l.id e)], .error e⟩
        | .ok _ =>
            ⟨l1, [.procInit l1.fileRows, .send m1 l.party0,
                  .enqueue { mType := .MsgTrainLoop, LoopRound := 0 }], .ok none⟩
  else ⟨l, [], .ok none⟩

/-- case MsgHomoPubkey, lines 299 to 304. -/
def handleHomoPubkey (l : Learner) (m : Message) : StepResult :=
  ⟨l, [.procSetHomoPub m.HomoPubkey], .ok (some { TaskID := l.id })⟩

/-- case MsgTrainLoop, lines 306 to 324: the round is accepted when it is 0
or the uint64 successor of loopRound; loopRound is set before upRound runs,
so the error return leaves it at the new round. -/
def handleTrainLoop (l : Learner) (m : Message) (env : Env) : StepResult :=
  let newRound := m.LoopRound
  if newRound = 0 ∨ newRound = succ64 l.loopRound then
    let l1 := { l with loopRound := newRound }
    match env.upRound newRound with
    | .error e =>
        ⟨l1, [.procUpRound newRound, .saveResult (errResult l.id e)], .error e⟩
    | .ok _ =>
        ⟨l1, [.procUpRound newRound,
              .enqueue { mType := .MsgTrainCalLocalGradCost, LoopRound := newRound }],
          .ok none⟩
  else ⟨l, [], .ok none⟩

/-- case MsgTrainCalLocalGradCost, lines 326 to 355. -/
def handleTrainCalLocalGradCost (l : Learner) (m : Message) (env : Env) : StepResult :=
  if m.LoopRound = l.loopRound then
    match env.calLocalGradientAndCost with
    | .error e =>
        ⟨l, [.procCalLocalGradCost, .saveResult (errResult l.id e)], .error e⟩
    | .ok (partBytesForOther, t) =>
        if t = 1 then
          let m1 : Message :=
            { mType := .MsgTrainPartBytes, PartBytes := partBytesForOther,
              LoopRound := m.LoopRound }
          match env.sendWithRetry m1 l.party0 with
          | .error e =>
              ⟨l, [.procCalLocalGradCost, .send m1 l.party0,
                   .saveResult (errResult l.id e)], .error e⟩
          | .ok _ =>
              ⟨l, [.procCalLocalGradCost, .send m1 l.party0,
                   .enqueue { mType := .MsgTrainCalEncGradCost,
                              LoopRound := m.LoopRound }], .ok none⟩
        else ⟨l, [.procCalLocalGradCost], .ok none⟩
  else ⟨l, [], .ok none⟩

/-- case MsgTrainPartBytes, lines 357 to 379: the part bytes are stored when
the round is loopRound or its uint64 successor; a local
MsgTrainCalEncGradCost is posted only when the round equals loopRound; the
response carrying the task id is returned in every non-error path. -/
def handleTrainPartBytes (l : Learner) (m : Message) (env : Env) : StepResult :=
  let r := m.LoopRound
  if r = l.loopRound ∨ r = succ64 l.loopRound then
    match env.setPartBytesFromOther m.PartBytes r with
    | .error e =>
        ⟨l, [.procSetPartBytes m.PartBytes r, .saveResult (errResult l.id e)], .error e⟩
    | .ok _ =>
        if r = l.loopRound then
          ⟨l, [.procSetPartBytes m.PartBytes r,
               .enqueue { mType := .MsgTrainCalEncGradCost, LoopRound := r }],
            .ok (some { TaskID := l.id })⟩
        else
          ⟨l, [.procSetPartBytes m.PartBytes r], .ok (some { TaskID := l.id })⟩
  else ⟨l, [], .ok (some { TaskID := l.id })⟩

/-- case MsgTrainCalEncGradCost, lines 381 to 403. -/
def handleTrainCalEncGradCost (l : Learner) (m : Message) (env : Env) : StepResult :=
  if m.LoopRound = l.loopRound then
    match env.calEncGradientAndCost with
    | .error e =>
        ⟨l, [.procCalEncGradCost, .saveResult (errResult l.id e)], .error e⟩
    | .ok (encGradForOther, encCostForOther, t) =>
        if t = 1 then
          let m1 : Message :=
            { mType := .MsgTrainEncGradCost, EncGradFromOther := encGradForOther,
              EncCostFromOther := encCostForOther, LoopRound := m.LoopRound }
          match env.sendWithRetry m1 l.party0 with
          | .error e =>
              ⟨l, [.procCalEncGradCost, .send m1 l.party0,
                   .saveResult (errResult l.id e)], .error e⟩
          | .ok _ => ⟨l, [.procCalEncGradCost, .send m1 l.party0], .ok none⟩
        else ⟨l, [.procCalEncGradCost], .ok none⟩
  else ⟨l, [], .ok none⟩

/-- case MsgTrainEncGradCost, lines 405 to 423. -/
def handleTrainEncGradCost (l : Learner) (m : Message) (env : Env) : StepResult :=
  if m.LoopRound = l.loopRound then
    let t := env.setEncGradientAndCostFromOther m.EncGradFromOther m.EncCostFromOther
    if t = 1 then
      ⟨l, [.procSetEncGradCost m.EncGradFromOther m.EncCostFromOther,
           .enqueue { mType := .MsgTrainDecLocalGradCost, LoopRound := m.LoopRound }],
        .ok (some { TaskID := l.id })⟩
    else
      ⟨l, [.procSetEncGradCost m.EncGradFromOther m.EncCostFromOther],
        .ok (some { TaskID := l.id })⟩
  else ⟨l, [], .ok (some { TaskID := l.id })⟩

/-- case MsgTrainDecLocalGradCost, lines 425 to 447. -/
def handleTrainDecLocalGradCost (l : Learner) (m : Message) (env : Env) : StepResult :=
  if m.LoopRound = l.loopRound then
    match env.decGradientAndCost with
    | .error e =>
        ⟨l, [.procDecGradCost, .saveResult (errResult l.id e)], .error e⟩
    | .ok (gradBytesForOther, costBytesForOther, t) =>
        if t = 1 then
          let m1 : Message :=
            { mType := .MsgTrainGradAndCost, GradBytes := gradBytesForOther,
              CostBytes := costBytesForOther, LoopRound := m.LoopRound }
          match env.sendWithRetry m1 l.party0 with
          | .error e =>
              ⟨l, [.procDecGradCost, .send m1 l.party0,
                   .saveResult (errResult l.id e)], .error e⟩
          | .ok _ => ⟨l, [.procDecGradCost, .send m1 l.party0], .ok none⟩
        else ⟨l, [.procDecGradCost], .ok none⟩
  else ⟨l, [], .ok none⟩

/-- case MsgTrainGradAndCost, lines 449 to 467. -/
def handleTrainGradAndCost (l : Learner) (m : Message) (env : Env) : StepResult :=
  if m.LoopRound = l.loopRound then
    let t := env.setGradientAndCostFromOther m.GradBytes m.CostBytes
    if t = 1 then
      ⟨l, [.procSetGradCost m.GradBytes m.CostBytes,
           .enqueue { mType := .MsgTrainUpdCostGrad, LoopRound := m.LoopRound }],
        .ok (some { TaskID := l.id })⟩
    else
      ⟨l, [.procSetGradCost m.GradBytes m.CostBytes], .ok (some { TaskID := l.id })⟩
  else ⟨l, [], .ok (some { TaskID := l.id })⟩

/-- case MsgTrainUpdCostGrad, lines 469 to 497. -/
def handleTrainUpdCostGrad (l : Learner) (m : Message) (env : Env) : StepResult :=
  if m.LoopRound = l.loopRound then
    match env.updateCostAndGradient with
    | .error e =>
        ⟨l, [.procUpdateCostGrad, .saveResult (errResult l.id e)], .error e⟩
    | .ok stopped =>
        let m1 : Message :=
          { mType := .MsgTrainStatus, Stopped := stopped, LoopRound := m.LoopRound }
        match env.sendWithRetry m1 l.party0 with
        | .error e =>
            ⟨l, [.procUpdateCostGrad, .send m1 l.party0,
                 .saveResult (errResult l.id e)], .error e⟩
        | .ok _ =>
            ⟨l, [.procUpdateCostGrad, .send m1 l.party0,
                 .enqueue { mType := .MsgTrainCheckStatus, LoopRound := m.LoopRound }],
              .ok none⟩
  else ⟨l, [], .ok none⟩

/-- case MsgTrainStatus, lines 499 to 518. -/
def handleTrainStatus (l : Learner) (m : Message) : StepResult :=
  if m.LoopRound = l.loopRound then
    ⟨l, [.procSetOtherStatus m.Stopped,
         .enqueue { mType := .MsgTrainCheckStatus, LoopRound := m.LoopRound }],
      .ok (some { TaskID := l.id })⟩
  else ⟨l, [], .ok (some { TaskID := l.id })⟩

/-- case MsgTrainCheckStatus, lines 520 to 544.  The new loop is started
with the uint64 successor of the round of the message. -/
def handleTrainCheckStatus (l : Learner) (m : Message) (env : Env) : StepResult :=
  let decided := env.stop.1
  let stopped := env.stop.2
  if decided then
    if stopped then
      ⟨l, [.enqueue { mType := .MsgTrainModels, LoopRound := m.LoopRound }], .ok none⟩
    else
      ⟨l, [.enqueue { mType := .MsgTrainLoop, LoopRound := succ64 m.LoopRound }],
        .ok none⟩
  else ⟨l, [], .ok none⟩

/-- case MsgTrainModels, lines 546 to 563: guarded by status == StartTrain;
status is set to EndTrain before getTrainModels runs. -/
def handleTrainModels (l : Learner) (env : Env) : StepResult :=
  if l.status = .startTrain then
    let l1 := { l with status := LearnerStatus.endTrain }
    match env.getTrainModels with
    | .error e => ⟨l1, [.saveResult (errResult l.id e)], .error e⟩
    | .ok model =>
        ⟨l1, [.saveResult { TaskID := l.id, Success := true, Model := model }],
          .ok none⟩
  else ⟨l, [], .ok none⟩

/-- advance, lines 154 to 571: dispatch on the message type.  A type that is
none of the enumerated cases falls through the switch and returns (nil, nil). -/
def advance (l : Learner) (m : Message) (env : Env) : StepResult :=
  match m.mType with
  | .MsgPsiEnc => handlePsiEnc l env
  | .MsgPsiAskReEnc => handlePsiAskReEnc l m env
  | .MsgPsiReEnc => handlePsiReEnc l m env
  | .MsgPsiIntersect => handlePsiIntersect l env
  | .MsgTrainHup => handleTrainHup l env
  | .MsgHomoPubkey => handleHomoPubkey l m
  | .MsgTrainLoop => handleTrainLoop l m env
  | .MsgTrainCalLocalGradCost => handleTrainCalLocalGradCost l m env
  | .MsgTrainPartBytes => handleTrainPartBytes l m env
  | .MsgTrainCalEncGradCost => handleTrainCalEncGradCost l m env
  | .MsgTrainEncGradCost => handleTrainEncGradCost l m env
  | .MsgTrainDecLocalGradCost => handleTrainDecLocalGradCost l m env
  | .MsgTrainGradAndCost => handleTrainGradAndCost l m env
  | .MsgTrainUpdCostGrad => handleTrainUpdCostGrad l m env
  | .MsgTrainStatus => handleTrainStatus l m
  | .MsgTrainCheckStatus => handleTrainCheckStatus l m env
  | .MsgTrainModels => handleTrainModels l env
  | .MsgOther => ⟨l, [], .ok none⟩

/-- Advance, lines 143 to 151: unmarshal the payload, wrapping a failure
with ErrCodeParam, then dispatch to advance. -/
def Advance (l : Learner) (payload : Bytes) (env : Env) : StepResult :=
  match env.unmarshal payload with
  | .error s =>
      ⟨l, [], .error { code := .param, msg := "failed to Unmarshal payload: " ++ s }⟩
  | .ok m => advance l m env

/-- Run a sequence of advance steps, each with the outcome of its external
calls fixed by its own Env, collecting all effects in order. -/
def runTrace : Learner → List (Message × Env) → Learner × List Effect
  | l, [] => (l, [])
  | l, (m, env) :: rest =>
      let r := advance l m env
      let (lf, effs) := runTrace r.state rest
      (lf, r.effects ++ effs)

/-- Whether an effect is a SaveResult call on the result port. -/
def Effect.isSave : Effect → Bool
  | .saveResult _ => true
  | _ => false

/-- Whether an effect is a SaveResult call reporting success. -/
def Effect.isSuccessSave : Effect → Bool
  | .saveResult r => r.Success
  | _ => false

/-- Number of SaveResult calls in an effect list. -/
def saveCount (effs : List Effect) : Nat := (effs.filter Effect.isSave).length

/-- Number of successful SaveResult calls in an effect list. -/
def successSaveCount (effs : List Effect) : Nat :=
  (effs.filter Effect.isSuccessSave).length

/-- The retry loop of sendMessageWithRetry, lines 580 to 585, instrumented
with the number of sendMessage attempts made: from attempt i with the given
remaining iteration budget and the current (m, err) pair, run
m, err = sendMessage(...) each iteration and break on the first nil error. -/
def retryFrom (send : Nat → Except Err Message) :
    Nat → Nat → Except Err Message → Except Err Message × Nat
  | _, 0, last => (last, 0)
  | i, fuel + 1, _ =>
      match send i with
      | .ok m => (.ok m, 1)
      | .error e =>
          let r := retryFrom send (i + 1) fuel (.error e)
          (r.1, r.2 + 1)

/-- sendMessageWithRetry, lines 573 to 588: times = 3; send is the outcome
of each sendMessage attempt; returns the Go return pair together with the
number of attempts made. -/
def sendMessageWithRetry (send : Nat → Except Err Message) :
    Except Err Message × Nat :=
  retryFrom send 0 3 (.ok default)

/-- The Learner fields as set by NewLearner, lines 628 to 665: status starts
at StartPSI, loopRound and fileRows start at their zero values. -/
def newLearner (id address : String) (parties : List String) (homoPub : Bytes) :
    Learner :=
  { id := id, address := address, parties := parties, homoPub := homoPub,
    loopRound := 0, fileRows := [], status := .startPSI }

/-- PadStart of the crypto package: pad bytes to a specific length with
zeros at the beginning; the length argument is a Go int. -/
def PadStart (s : List Nat) (newLen : Int) : List Nat :=
  if (s.length : Int) ≥ newLen then s
  else List.replicate (newLen - (s.length : Int)).toNat 0 ++ s

/-- Whether a Go return pair is an error return. -/
def isErr : Except Err (Option TrainResponse) → Bool
  | .error _ => true
  | .ok _ => false

/-- A message carrying only its type, all other fields at their protobuf
zero values. -/
def msgOf (t : MessageType) : Message := { mType := t }

/-- An Env whose external calls all fail or return zero values; base record
for the concrete scenarios below. -/
def envBase : Env where
  encryptSampleIDSet := .error { msg := "psi broken" }
  setReEncryptIDSet := fun _ _ => .error { msg := "psi broken" }
  reEncryptIDSet := fun _ _ => .error { msg := "psi broken" }
  setOtherFinalReEncryptIDSet := fun _ _ => .error { msg := "psi broken" }
  intersectParts := .error { msg := "psi broken" }
  procInit := fun _ => .error { msg := "proc broken" }
  upRound := fun _ => .error { msg := "proc broken" }
  calLocalGradientAndCost := .error { msg := "proc broken" }
  setPartBytesFromOther := fun _ _ => .error { msg := "proc broken" }
  calEncGradientAndCost := .error { msg := "proc broken" }
  setEncGradientAndCostFromOther := fun _ _ => 0
  decGradientAndCost := .error { msg := "proc broken" }
  setGradientAndCostFromOther := fun _ _ => 0
  updateCostAndGradient := .error { msg := "proc broken" }
  stop := (false, false)
  getTrainModels := .error { msg := "proc broken" }
  marshal := fun _ => .ok []
  unmarshal := fun _ => .error "bad payload"
  sendWithRetry := fun _ _ => .error { msg := "rpc down" }

/-- A freshly constructed Learner for task task1. -/
def lcStart : Learner := newLearner "task1" "addrA" ["addrB"] [1, 2]

/-- An Env in which IntersectParts reports done with one aligned row. -/
def envIntersectDone : Env :=
  { envBase with intersectParts := .ok (true, [["r1"]]) }

/-- An Env in which process.init and the send to the peer succeed. -/
def envHupOk : Env :=
  { envBase with procInit := fun _ => .ok (), sendWithRetry := fun _ _ => .ok {} }

/-- An Env in which getTrainModels returns a model. -/
def envModelsOk : Env := { envBase with getTrainModels := .ok [7] }

/-- An Env in which process.upRound succeeds. -/
def envUpOk : Env := { envBase with upRound := fun _ => .ok () }

/-- An Env for the MsgPsiReEnc scenario: ReEncryptIDSet yields the bytes
9 and 9, marshalling yields the bytes 4 and 2, and
SetOtherFinalReEncryptIDSet succeeds. -/
def envReEncOk : Env :=
  { envBase with
    reEncryptIDSet := fun _ _ => .ok [9, 9],
    setOtherFinalReEncryptIDSet := fun _ _ => .ok (),
    marshal := fun _ => .ok [4, 2] }

/-- The two steps that drive a fresh Learner to status StartTrain: a done
PSI intersection followed by the training handup. -/
def traceToStartTrain : List (Message × Env) :=
  [(msgOf .MsgPsiIntersect, envIntersectDone), (msgOf .MsgTrainHup, envHupOk)]

/-- The Learner after PSI completion and training handup. -/
def lcStartTrain : Learner := (runTrace lcStart traceToStartTrain).1

/-- A trace in which training completes, a duplicate of the peer PSI
exchange then resets the status, the handup fires again and training
completes a second time. -/
def traceTwoSuccess : List (Message × Env) :=
  [(msgOf .MsgPsiIntersect, envIntersectDone), (msgOf .MsgTrainHup, envHupOk),
   (msgOf .MsgTrainModels, envModelsOk),
   (msgOf .MsgPsiIntersect, envIntersectDone), (msgOf .MsgTrainHup, envHupOk),
   (msgOf .MsgTrainModels, envModelsOk)]

/-- An attempt-indexed sendMessage outcome: the first attempt fails, later
attempts succeed. -/
def sendFlakyOnce : Nat → Except Err Message :=
  fun i => if i = 0 then .error { msg := "flake" } else .ok {}

/-- A wire MsgTrainPartBytes for round 5, far outside the acceptance window
of a Learner at round 0. -/
def mPartBytes5 : Message := { mType := .MsgTrainPartBytes, LoopRound := 5 }

/-- A local MsgTrainLoop for round 1. -/
def mTrainLoop1 : Message := { mType := .MsgTrainLoop, LoopRound := 1 }

/-- An inbound MsgPsiReEnc from the peer carrying its encrypted id set. -/
def mPsiReEncW : Message :=
  { mType := .MsgPsiReEnc, From := "addrB",
    VlLPsiReEncIDsReq := { TaskID := "task1", EncIDs := [3] } }

/-! State preservation of the handlers that never write a Learner field. -/

theorem state_handlePsiEnc (l : Learner) (env : Env) :
    (handlePsiEnc l env).state = l := by
  simp only [handlePsiEnc]
  repeat' split
  all_goals rfl

theorem state_handlePsiAskReEnc (l : Learner) (m : Message) (env : Env) :
    (handlePsiAskReEnc l m env).state = l := by
  simp only [handlePsiAskReEnc]
  repeat' split
  all_goals rfl

theorem state_handlePsiReEnc (l : Learner) (m : Message) (env : Env) :
    (handlePsiReEnc l m env).state = l := by
  simp only [handlePsiReEnc]
  repeat' split
  all_goals rfl

theorem state_handleHomoPubkey (l : Learner) (m : Message) :
    (handleHomoPubkey l m).state = l := rfl

theorem state_handleTrainCalLocalGradCost (l : Learner) (m : Message) (env : Env) :
    (handleTrainCalLocalGradCost l m env).state = l := by
  simp only [handleTrainCalLocalGradCost]
  repeat' split
  all_goals rfl

theorem state_handleTrainPartBytes (l : Learner) (m : Message) (env : Env) :
    (handleTrainPartBytes l m env).state = l := by
  simp only [handleTrainPartBytes]
  repeat' split
  all_goals rfl

theorem state_handleTrainCalEncGradCost (l : Learner) (m : Message) (env : Env) :
    (handleTrainCalEncGradCost l m env).state = l := by
  simp only [handleTrainCalEncGradCost]
  repeat' split
  all_goals rfl

theorem state_handleTrainEncGradCost (l : Learner) (m : Message) (env : Env) :
    (handleTrainEncGradCost l m env).state = l := by
  simp only [handleTrainEncGradCost]
  repeat' split
  all_goals rfl

theorem state_handleTrainDecLocalGradCost (l : Learner) (m : Message) (env : Env) :
    (handleTrainDecLocalGradCost l m env).state = l := by
  simp only [handleTrainDecLocalGradCost]
  repeat' split
  all_goals rfl

theorem state_handleTrainGradAndCost (l : Learner) (m : Message) (env : Env) :
    (handleTrainGradAndCost l m env).state = l := by
  simp only [handleTrainGradAndCost]
  repeat' split
  all_goals rfl

theorem state_handleTrainUpdCostGrad (l : Learner) (m : Message) (env : Env) :
    (handleTrainUpdCostGrad l m env).state = l := by
  simp only [handleTrainUpdCostGrad]
  repeat' split
  all_goals rfl

theorem state_handleTrainStatus (l : Learner) (m : Message) :
    (handleTrainStatus l m).state = l := by
  simp only [handleTrainStatus]
  repeat' split
  all_goals rfl

theorem state_handleTrainCheckStatus (l : Learner) (m : Message) (env : Env) :
    (handleTrainCheckStatus l m env).state = l := by
  simp only [handleTrainCheckStatus]
  repeat' split
  all_goals rfl

/-! Status facts of the three handlers that do write the status field. -/

theorem status_handleTrainHup_of_endPSI (l : Learner) (env : Env)
    (h : l.status = .endPSI) :
    (handleTrainHup l env).state.status = .startTrain := by
  simp only [handleTrainHup, if_pos h]
  repeat' split
  all_goals rfl

theorem handleTrainHup_noop (l : Learner) (env : Env) (h : l.status ≠ .endPSI) :
    handleTrainHup l env = ⟨l, [], .ok none⟩ := by
  simp only [handleTrainHup, if_neg h]

theorem status_handleTrainLoop (l : Learner) (m : Message) (env : Env) :
    (handleTrainLoop l m env).state.status = l.status := by
  simp only [handleTrainLoop]
  repeat' split
  all_goals rfl

theorem handleTrainModels_ok (l : Learner) (env : Env) (model : Bytes)
    (hs : l.status = .startTrain) (hg : env.getTrainModels = .ok model) :
    handleTrainModels l env =
      ⟨{ l with status := LearnerStatus.endTrain },
        [.saveResult { TaskID := l.id, Success := true, Model := model }],
        .ok none⟩ := by
  simp only [handleTrainModels, if_pos hs, hg]

theorem handleTrainModels_err (l : Learner) (env : Env) (e : Err)
    (hs : l.status = .startTrain) (hg : env.getTrainModels = .error e) :
    handleTrainModels l env =
      ⟨{ l with status := LearnerStatus.endTrain },
        [.saveResult (errResult l.id e)], .error e⟩ := by
  simp only [handleTrainModels, if_pos hs, hg]

theorem handleTrainModels_noop (l : Learner) (env : Env)
    (hs : l.status ≠ .startTrain) :
    handleTrainModels l env = ⟨l, [], .ok none⟩ := by
  simp only [handleTrainModels, if_neg hs]

theorem status_handleTrainModels_of_startTrain (l : Learner) (env : Env)
    (hs : l.status = .startTrain) :
    (handleTrainModels l env).state.status = .endTrain := by
  simp only [handleTrainModels, if_pos hs]
  split
  all_goals rfl

/-! SaveResult counting per handler: each handler posts at most one result,
posts exactly one on every error return, and posts no successful result,
except handleTrainModels which posts the lone successful one. -/

theorem saves_handlePsiEnc (l : Learner) (env : Env) :
    saveCount (handlePsiEnc l env).effects ≤ 1 ∧
    (isErr (handlePsiEnc l env).output = true →
      saveCount (handlePsiEnc l env).effects = 1) ∧
    successSaveCount (handlePsiEnc l env).effects = 0 := by
  simp only [handlePsiEnc]
  repeat' split
  all_goals simp [saveCount, successSaveCount, Effect.isSave, Effect.isSuccessSave,
    errResult, isErr]

theorem saves_handlePsiAskReEnc (l : Learner) (m : Message) (env : Env) :
    saveCount (handlePsiAskReEnc l m env).effects ≤ 1 ∧
    (isErr (handlePsiAskReEnc l m env).output = true →
      saveCount (handlePsiAskReEnc l m env).effects = 1) ∧
    successSaveCount (handlePsiAskReEnc l m env).effects = 0 := by
  simp only [handlePsiAskReEnc]
  repeat' split
  all_goals simp [saveCount, successSaveCount, Effect.isSave, Effect.isSuccessSave,
    errResult, isErr]

theorem saves_handlePsiReEnc (l : Learner) (m : Message) (env : Env) :
    saveCount (handlePsiReEnc l m env).effects ≤ 1 ∧
    (isErr (handlePsiReEnc l m env).output = true →
      saveCount (handlePsiReEnc l m env).effects = 1) ∧
    successSaveCount (handlePsiReEnc l m env).effects = 0 := by
  simp only [handlePsiReEnc]
  repeat' split
  all_goals simp [saveCount, successSaveCount, Effect.isSave, Effect.isSuccessSave,
    errResult, isErr]

theorem saves_handlePsiIntersect (l : Learner) (env : Env) :
    saveCount (handlePsiIntersect l env).effects ≤ 1 ∧
    (isErr (handlePsiIntersect l env).output = true →
      saveCount (handlePsiIntersect l env).effects = 1) ∧
    successSaveCount (handlePsiIntersect l env).effects = 0 := by
  simp only [handlePsiIntersect]
  repeat' split
  all_goals simp [saveCount, successSaveCount, Effect.isSave, Effect.isSuccessSave,
    errResult, isErr]

theorem saves_handleTrainHup (l : Learner) (env : Env) :
    saveCount (handleTrainHup l env).effects ≤ 1 ∧
    (isErr (handleTrainHup l env).output = true →
      saveCount (handleTrainHup l env).effects = 1) ∧
    successSaveCount (handleTrainHup l env).effects = 0 := by
  simp only [handleTrainHup]
  repeat' split
  all_goals simp [saveCount, successSaveCount, Effect.isSave, Effect.isSuccessSave,
    errResult, isErr]

theorem saves_handleHomoPubkey (l : Learner) (m : Message) :
    saveCount (handleHomoPubkey l m).effects ≤ 1 ∧
    (isErr (handleHomoPubkey l m).output = true →
      saveCount (handleHomoPubkey l m).effects = 1) ∧
    successSaveCount (handleHomoPubkey l m).effects = 0 := by
  simp [handleHomoPubkey, saveCount, successSaveCount, Effect.isSave,
    Effect.isSuccessSave, isErr]

theorem saves_handleTrainLoop (l : Learner) (m : Message) (env : Env) :
    saveCount (handleTrainLoop l m env).effects ≤ 1 ∧
    (isErr (handleTrainLoop l m env).output = true →
      saveCount (handleTrainLoop l m env).effects = 1) ∧
    successSaveCount (handleTrainLoop l m env).effects = 0 := by
  simp only [handleTrainLoop]
  repeat' split
  all_goals simp [saveCount, successSaveCount, Effect.isSave, Effect.isSuccessSave,
    errResult, isErr]

theorem saves_handleTrainCalLocalGradCost (l : Learner) (m : Message) (env : Env) :
    saveCount (handleTrainCalLocalGradCost l m env).effects ≤ 1 ∧
    (isErr (handleTrainCalLocalGradCost l m env).output = true →
      saveCount (handleTrainCalLocalGradCost l m env).effects = 1) ∧
    successSaveCount (handleTrainCalLocalGradCost l m env).effects = 0 := by
  simp only [handleTrainCalLocalGradCost]
  repeat' split
  all_goals simp [saveCount, successSaveCount, Effect.isSave, Effect.isSuccessSave,
    errResult, isErr]

theorem saves_handleTrainPartBytes (l : Learner) (m : Message) (env : Env) :
    saveCount (handleTrainPartBytes l m env).effects ≤ 1 ∧
    (isErr (handleTrainPartBytes l m env).output = true →
      saveCount (handleTrainPartBytes l m env).effects = 1) ∧
    successSaveCount (handleTrainPartBytes l m env).effects = 0 := by
  simp only [handleTrainPartBytes]
  repeat' split
  all_goals simp [saveCount, successSaveCount, Effect.isSave, Effect.isSuccessSave,
    errResult, isErr]

theorem saves_handleTrainCalEncGradCost (l : Learner) (m : Message) (env : Env) :
    saveCount (handleTrainCalEncGradCost l m env).effects ≤ 1 ∧
    (isErr (handleTrainCalEncGradCost l m env).output = true →
      saveCount (handleTrainCalEncGradCost l m env).effects = 1) ∧
    successSaveCount (handleTrainCalEncGradCost l m env).effects = 0 := by
  simp only [handleTrainCalEncGradCost]
  repeat' split
  all_goals simp [saveCount, successSaveCount, Effect.isSave, Effect.isSuccessSave,
    errResult, isErr]

theorem saves_handleTrainEncGradCost (l : Learner) (m : Message) (env : Env) :
    saveCount (handleTrainEncGradCost l m env).effects ≤ 1 ∧
    (isErr (handleTrainEncGradCost l m env).output = true →
      saveCount (handleTrainEncGradCost l m env).effects = 1) ∧
    successSaveCount (handleTrainEncGradCost l m env).effects = 0 := by
  simp only [handleTrainEncGradCost]
  repeat' split
  all_goals simp [saveCount, successSaveCount, Effect.isSave, Effect.isSuccessSave,
    errResult, isErr]

theorem saves_handleTrainDecLocalGradCost (l : Learner) (m : Message) (env : Env) :
    saveCount (handleTrainDecLocalGradCost l m env).effects ≤ 1 ∧
    (isErr (handleTrainDecLocalGradCost l m env).output = true →
      saveCount (handleTrainDecLocalGradCost l m env).effects = 1) ∧
    successSaveCount (handleTrainDecLocalGradCost l m env).effects = 0 := by
  simp only [handleTrainDecLocalGradCost]
  repeat' split
  all_goals simp [saveCount, successSaveCount, Effect.isSave, Effect.isSuccessSave,
    errResult, isErr]

theorem saves_handleTrainGradAndCost (l : Learner) (m : Message) (env : Env) :
    saveCount (handleTrainGradAndCost l m env).effects ≤ 1 ∧
    (isErr (handleTrainGradAndCost l m env).output = true →
      saveCount (handleTrainGradAndCost l m env).effects = 1) ∧
    successSaveCount (handleTrainGradAndCost l m env).effects = 0 := by
  simp only [handleTrainGradAndCost]
  repeat' split
  all_goals simp [saveCount, successSaveCount, Effect.isSave, Effect.isSuccessSave,
    errResult, isErr]

theorem saves_handleTrainUpdCostGrad (l : Learner) (m : Message) (env : Env) :
    saveCount (handleTrainUpdCostGrad l m env).effects ≤ 1 ∧
    (isErr (handleTrainUpdCostGrad l m env).output = true →
      saveCount (handleTrainUpdCostGrad l m env).effects = 1) ∧
    successSaveCount (handleTrainUpdCostGrad l m env).effects = 0 := by
  simp only [handleTrainUpdCostGrad]
  repeat' split
  all_goals simp [saveCount, successSaveCount, Effect.isSave, Effect.isSuccessSave,
    errResult, isErr]

theorem saves_handleTrainStatus (l : Learner) (m : Message) :
    saveCount (handleTrainStatus l m).effects ≤ 1 ∧
    (isErr (handleTrainStatus l m).output = true →
      saveCount (handleTrainStatus l m).effects = 1) ∧
    successSaveCount (handleTrainStatus l m).effects = 0 := by
  simp only [handleTrainStatus]
  repeat' split
  all_goals simp [saveCount, successSaveCount, Effect.isSave, Effect.isSuccessSave,
    errResult, isErr]

theorem saves_handleTrainCheckStatus (l : Learner) (m : Message) (env : Env) :
    saveCount (handleTrainCheckStatus l m env).effects ≤ 1 ∧
    (isErr (handleTrainCheckStatus l m env).output = true →
      saveCount (handleTrainCheckStatus l m env).effects = 1) ∧
    successSaveCount (handleTrainCheckStatus l m env).effects = 0 := by
  simp only [handleTrainCheckStatus]
  repeat' split
  all_goals simp [saveCount, successSaveCount, Effect.isSave, Effect.isSuccessSave,
    errResult, isErr]

theorem saves_handleTrainModels (l : Learner) (env : Env) :
    saveCount (handleTrainModels l env).effects ≤ 1 ∧
    (isErr (handleTrainModels l env).output = true →
      saveCount (handleTrainModels l env).effects = 1) ∧
    successSaveCount (handleTrainModels l env).effects ≤ 1 ∧
    (successSaveCount (handleTrainModels l env).effects = 1 →
      l.status = .startTrain ∧ (handleTrainModels l env).state.status = .endTrain) := by
  by_cases hs : l.status = .startTrain
  · cases hg : env.getTrainModels with
    | error e =>
        rw [handleTrainModels_err l env e hs hg]
        simp [saveCount, successSaveCount, Effect.isSave, Effect.isSuccessSave,
          errResult, isErr, hs]
    | ok model =>
        rw [handleTrainModels_ok l env model hs hg]
        simp [saveCount, successSaveCount, Effect.isSave, Effect.isSuccessSave,
          isErr, hs]
  · rw [handleTrainModels_noop l env hs]
    simp [saveCount, successSaveCount, isErr]

/-! Lemmas at the level of advance, assembled from the per-handler facts. -/

theorem advance_saveCount (l : Learner) (m : Message) (env : Env) :
    saveCount (advance l m env).effects ≤ 1 ∧
    (isErr (advance l m env).output = true →
      saveCount (advance l m env).effects = 1) := by
  obtain ⟨mt, mf, mto, mr, mrq, mrs, mhk, mpb, meg, mec, mgb, mcb, mst⟩ := m
  cases mt
  case MsgPsiEnc => exact ⟨(saves_handlePsiEnc l env).1, (saves_handlePsiEnc l env).2.1⟩
  case MsgPsiAskReEnc =>
    exact ⟨(saves_handlePsiAskReEnc l _ env).1, (saves_handlePsiAskReEnc l _ env).2.1⟩
  case MsgPsiReEnc =>
    exact ⟨(saves_handlePsiReEnc l _ env).1, (saves_handlePsiReEnc l _ env).2.1⟩
  case MsgPsiIntersect =>
    exact ⟨(saves_handlePsiIntersect l env).1, (saves_handlePsiIntersect l env).2.1⟩
  case MsgTrainHup =>
    exact ⟨(saves_handleTrainHup l env).1, (saves_handleTrainHup l env).2.1⟩
  case MsgHomoPubkey =>
    exact ⟨(saves_handleHomoPubkey l _).1, (saves_handleHomoPubkey l _).2.1⟩
  case MsgTrainLoop =>
    exact ⟨(saves_handleTrainLoop l _ env).1, (saves_handleTrainLoop l _ env).2.1⟩
  case MsgTrainCalLocalGradCost =>
    exact ⟨(saves_handleTrainCalLocalGradCost l _ env).1,
           (saves_handleTrainCalLocalGradCost l _ env).2.1⟩
  case MsgTrainPartBytes =>
    exact ⟨(saves_handleTrainPartBytes l _ env).1, (saves_handleTrainPartBytes l _ env).2.1⟩
  case MsgTrainCalEncGradCost =>
    exact ⟨(saves_handleTrainCalEncGradCost l _ env).1,
           (saves_handleTrainCalEncGradCost l _ env).2.1⟩
  case MsgTrainEncGradCost =>
    exact ⟨(saves_handleTrainEncGradCost l _ env).1, (saves_handleTrainEncGradCost l _ env).2.1⟩
  case MsgTrainDecLocalGradCost =>
    exact ⟨(saves_handleTrainDecLocalGradCost l _ env).1,
           (saves_handleTrainDecLocalGradCost l _ env).2.1⟩
  case MsgTrainGradAndCost =>
    exact ⟨(saves_handleTrainGradAndCost l _ env).1, (saves_handleTrainGradAndCost l _ env).2.1⟩
  case MsgTrainUpdCostGrad =>
    exact ⟨(saves_handleTrainUpdCostGrad l _ env).1, (saves_handleTrainUpdCostGrad l _ env).2.1⟩
  case MsgTrainStatus =>
    exact ⟨(saves_handleTrainStatus l _).1, (saves_handleTrainStatus l _).2.1⟩
  case MsgTrainCheckStatus =>
    exact ⟨(saves_handleTrainCheckStatus l _ env).1, (saves_handleTrainCheckStatus l _ env).2.1⟩
  case MsgTrainModels =>
    exact ⟨(saves_handleTrainModels l env).1, (saves_handleTrainModels l env).2.1⟩
  case MsgOther => simp [advance, saveCount, isErr]

theorem advance_successSave (l : Learner) (m : Message) (env : Env) :
    successSaveCount (advance l m env).effects ≤ 1 ∧
    (successSaveCount (advance l m env).effects = 1 →
      (advance l m env).state.status = .endTrain) := by
  obtain ⟨mt, mf, mto, mr, mrq, mrs, mhk, mpb, meg, mec, mgb, mcb, mst⟩ := m
  cases mt
  case MsgPsiEnc =>
    dsimp only [advance]
    rw [(saves_handlePsiEnc l env).2.2]
    exact ⟨Nat.zero_le _, fun h => absurd h (by decide)⟩
  case MsgPsiAskReEnc =>
    dsimp only [advance]
    rw [(saves_handlePsiAskReEnc l _ env).2.2]
    exact ⟨Nat.zero_le _, fun h => absurd h (by decide)⟩
  case MsgPsiReEnc =>
    dsimp only [advance]
    rw [(saves_handlePsiReEnc l _ env).2.2]
    exact ⟨Nat.zero_le _, fun h => absurd h (by decide)⟩
  case MsgPsiIntersect =>
    dsimp only [advance]
    rw [(saves_handlePsiIntersect l env).2.2]
    exact ⟨Nat.zero_le _, fun h => absurd h (by decide)⟩
  case MsgTrainHup =>
    dsimp only [advance]
    rw [(saves_handleTrainHup l env).2.2]
    exact ⟨Nat.zero_le _, fun h => absurd h (by decide)⟩
  case MsgHomoPubkey =>
    dsimp only [advance]
    rw [(saves_handleHomoPubkey l _).2.2]
    exact ⟨Nat.zero_le _, fun h => absurd h (by decide)⟩
  case MsgTrainLoop =>
    dsimp only [advance]
    rw [(saves_handleTrainLoop l _ env).2.2]
    exact ⟨Nat.zero_le _, fun h => absurd h (by decide)⟩
  case MsgTrainCalLocalGradCost =>
    dsimp only [advance]
    rw [(saves_handleTrainCalLocalGradCost l _ env).2.2]
    exact ⟨Nat.zero_le _, fun h => absurd h (by decide)⟩
  case MsgTrainPartBytes =>
    dsimp only [advance]
    rw [(saves_handleTrainPartBytes l _ env).2.2]
    exact ⟨Nat.zero_le _, fun h => absurd h (by decide)⟩
  case MsgTrainCalEncGradCost =>
    dsimp only [advance]
    rw [(saves_handleTrainCalEncGradCost l _ env).2.2]
    exact ⟨Nat.zero_le _, fun h => absurd h (by decide)⟩
  case MsgTrainEncGradCost =>
    dsimp only [advance]
    rw [(saves_handleTrainEncGradCost l _ env).2.2]
    exact ⟨Nat.zero_le _, fun h => absurd h (by decide)⟩
  case MsgTrainDecLocalGradCost =>
    dsimp only [advance]
    rw [(saves_handleTrainDecLocalGradCost l _ env).2.2]
    exact ⟨Nat.zero_le _, fun h => absurd h (by decide)⟩
  case MsgTrainGradAndCost =>
    dsimp only [advance]
    rw [(saves_handleTrainGradAndCost l _ env).2.2]
    exact ⟨Nat.zero_le _, fun h => absurd h (by decide)⟩
  case MsgTrainUpdCostGrad =>
    dsimp only [advance]
    rw [(saves_handleTrainUpdCostGrad l _ env).2.2]
    exact ⟨Nat.zero_le _, fun h => absurd h (by decide)⟩
  case MsgTrainStatus =>
    dsimp only [advance]
    rw [(saves_handleTrainStatus l _).2.2]
    exact ⟨Nat.zero_le _, fun h => absurd h (by decide)⟩
  case MsgTrainCheckStatus =>
    dsimp only [advance]
    rw [(saves_handleTrainCheckStatus l _ env).2.2]
    exact ⟨Nat.zero_le _, fun h => absurd h (by decide)⟩
  case MsgTrainModels =>
    exact ⟨(saves_handleTrainModels l env).2.2.1,
      fun h => ((saves_handleTrainModels l env).2.2.2 h).2⟩
  case MsgOther => simp [advance, successSaveCount]

theorem advance_preserves_endTrain (l : Learner) (m : Message) (env : Env)
    (hm : m.mType ≠ .MsgPsiIntersect) (hs : l.status = .endTrain) :
    (advance l m env).state.status = .endTrain ∧
    successSaveCount (advance l m env).effects = 0 := by
  obtain ⟨mt, mf, mto, mr, mrq, mrs, mhk, mpb, meg, mec, mgb, mcb, mst⟩ := m
  cases mt
  case MsgPsiEnc =>
    dsimp only [advance]
    rw [state_handlePsiEnc l env, (saves_handlePsiEnc l env).2.2]
    exact ⟨hs, rfl⟩
  case MsgPsiAskReEnc =>
    dsimp only [advance]
    rw [state_handlePsiAskReEnc l _ env, (saves_handlePsiAskReEnc l _ env).2.2]
    exact ⟨hs, rfl⟩
  case MsgPsiReEnc =>
    dsimp only [advance]
    rw [state_handlePsiReEnc l _ env, (saves_handlePsiReEnc l _ env).2.2]
    exact ⟨hs, rfl⟩
  case MsgPsiIntersect => exact absurd rfl hm
  case MsgTrainHup =>
    dsimp only [advance]
    have hne : l.status ≠ .endPSI := by rw [hs]; intro h; cases h
    rw [handleTrainHup_noop l env hne]
    exact ⟨hs, rfl⟩
  case MsgHomoPubkey =>
    dsimp only [advance]
    rw [state_handleHomoPubkey l _, (saves_handleHomoPubkey l _).2.2]
    exact ⟨hs, rfl⟩
  case MsgTrainLoop =>
    dsimp only [advance]
    rw [status_handleTrainLoop l _ env, (saves_handleTrainLoop l _ env).2.2]
    exact ⟨hs, rfl⟩
  case MsgTrainCalLocalGradCost =>
    dsimp only [advance]
    rw [state_handleTrainCalLocalGradCost l _ env,
      (saves_handleTrainCalLocalGradCost l _ env).2.2]
    exact ⟨hs, rfl⟩
  case MsgTrainPartBytes =>
    dsimp only [advance]
    rw [state_handleTrainPartBytes l _ env, (saves_handleTrainPartBytes l _ env).2.2]
    exact ⟨hs, rfl⟩
  case MsgTrainCalEncGradCost =>
    dsimp only [advance]
    rw [state_handleTrainCalEncGradCost l _ env,
      (saves_handleTrainCalEncGradCost l _ env).2.2]
    exact ⟨hs, rfl⟩
  case MsgTrainEncGradCost =>
    dsimp only [advance]
    rw [state_handleTrainEncGradCost l _ env, (saves_handleTrainEncGradCost l _ env).2.2]
    exact ⟨hs, rfl⟩
  case MsgTrainDecLocalGradCost =>
    dsimp only [advance]
    rw [state_handleTrainDecLocalGradCost l _ env,
      (saves_handleTrainDecLocalGradCost l _ env).2.2]
    exact ⟨hs, rfl⟩
  case MsgTrainGradAndCost =>
    dsimp only [advance]
    rw [state_handleTrainGradAndCost l _ env, (saves_handleTrainGradAndCost l _ env).2.2]
    exact ⟨hs, rfl⟩
  case MsgTrainUpdCostGrad =>
    dsimp only [advance]
    rw [state_handleTrainUpdCostGrad l _ env, (saves_handleTrainUpdCostGrad l _ env).2.2]
    exact ⟨hs, rfl⟩
  case MsgTrainStatus =>
    dsimp only [advance]
    rw [state_handleTrainStatus l _, (saves_handleTrainStatus l _).2.2]
    exact ⟨hs, rfl⟩
  case MsgTrainCheckStatus =>
    dsimp only [advance]
    rw [state_handleTrainCheckStatus l _ env, (saves_handleTrainCheckStatus l _ env).2.2]
    exact ⟨hs, rfl⟩
  case MsgTrainModels =>
    dsimp only [advance]
    have hne : l.status ≠ .startTrain := by rw [hs]; intro h; cases h
    rw [handleTrainModels_noop l env hne]
    exact ⟨hs, rfl⟩
  case MsgOther => exact ⟨hs, rfl⟩

theorem advance_statusIdx_mono (l : Learner) (m : Message) (env : Env)
    (hm : m.mType ≠ .MsgPsiIntersect) :
    statusIdx l.status ≤ statusIdx (advance l m env).state.status := by
  obtain ⟨mt, mf, mto, mr, mrq, mrs, mhk, mpb, meg, mec, mgb, mcb, mst⟩ := m
  cases mt
  case MsgPsiEnc =>
    dsimp only [advance]; rw [state_handlePsiEnc l env]
  case MsgPsiAskReEnc =>
    dsimp only [advance]; rw [state_handlePsiAskReEnc l _ env]
  case MsgPsiReEnc =>
    dsimp only [advance]; rw [state_handlePsiReEnc l _ env]
  case MsgPsiIntersect => exact absurd rfl hm
  case MsgTrainHup =>
    dsimp only [advance]
    by_cases h : l.status = .endPSI
    · rw [status_handleTrainHup_of_endPSI l env h, h]
      decide
    · rw [handleTrainHup_noop l env h]
  case MsgHomoPubkey =>
    dsimp only [advance]; rw [state_handleHomoPubkey l _]
  case MsgTrainLoop =>
    dsimp only [advance]; rw [status_handleTrainLoop l _ env]
  case MsgTrainCalLocalGradCost =>
    dsimp only [advance]; rw [state_handleTrainCalLocalGradCost l _ env]
  case MsgTrainPartBytes =>
    dsimp only [advance]; rw [state_handleTrainPartBytes l _ env]
  case MsgTrainCalEncGradCost =>
    dsimp only [advance]; rw [state_handleTrainCalEncGradCost l _ env]
  case MsgTrainEncGradCost =>
    dsimp only [advance]; rw [state_handleTrainEncGradCost l _ env]
  case MsgTrainDecLocalGradCost =>
    dsimp only [advance]; rw [state_handleTrainDecLocalGradCost l _ env]
  case MsgTrainGradAndCost =>
    dsimp only [advance]; rw [state_handleTrainGradAndCost l _ env]
  case MsgTrainUpdCostGrad =>
    dsimp only [advance]; rw [state_handleTrainUpdCostGrad l _ env]
  case MsgTrainStatus =>
    dsimp only [advance]; rw [state_handleTrainStatus l _]
  case MsgTrainCheckStatus =>
    dsimp only [advance]; rw [state_handleTrainCheckStatus l _ env]
  case MsgTrainModels =>
    dsimp only [advance]
    by_cases h : l.status = .startTrain
    · rw [status_handleTrainModels_of_startTrain l env h, h]
      decide
    · rw [handleTrainModels_noop l env h]
  case MsgOther => exact Nat.le_refl _

/-! Trace level lemmas. -/

theorem runTrace_cons (l : Learner) (m : Message) (env : Env)
    (rest : List (Message × Env)) :
    runTrace l ((m, env) :: rest) =
      ((runTrace (advance l m env).state rest).1,
        (advance l m env).effects ++ (runTrace (advance l m env).state rest).2) := by
  simp [runTrace]

theorem successSaveCount_append (a b : List Effect) :
    successSaveCount (a ++ b) = successSaveCount a + successSaveCount b := by
  simp [successSaveCount, List.filter_append]

theorem runTrace_successSave_zero (trace : List (Message × Env)) : ∀ l : Learner,
    (∀ p ∈ trace, p.1.mType ≠ .MsgPsiIntersect) → l.status = .endTrain →
    successSaveCount (runTrace l trace).2 = 0 := by
  induction trace with
  | nil => intro l _ _; simp [runTrace, successSaveCount]
  | cons p rest ih =>
      intro l hall hs
      obtain ⟨m, env⟩ := p
      rw [runTrace_cons]
      simp only []
      rw [successSaveCount_append]
      have hm : m.mType ≠ .MsgPsiIntersect := hall (m, env) (List.mem_cons_self _ _)
      have h1 := advance_preserves_endTrain l m env hm hs
      have h2 := ih (advance l m env).state
        (fun q hq => hall q (List.mem_cons_of_mem _ hq)) h1.1
      omega

theorem runTrace_successSave_le_one (trace : List (Message × Env)) : ∀ l : Learner,
    (∀ p ∈ trace, p.1.mType ≠ .MsgPsiIntersect) →
    successSaveCount (runTrace l trace).2 ≤ 1 := by
  induction trace with
  | nil => intro l _; simp [runTrace, successSaveCount]
  | cons p rest ih =>
      intro l hall
      obtain ⟨m, env⟩ := p
      rw [runTrace_cons]
      simp only []
      rw [successSaveCount_append]
      have hstep := advance_successSave l m env
      have hrest := ih (advance l m env).state
        (fun q hq => hall q (List.mem_cons_of_mem _ hq))
      by_cases h1 : successSaveCount (advance l m env).effects = 1
      · have hend := hstep.2 h1
        have hz := runTrace_successSave_zero rest (advance l m env).state
          (fun q hq => hall q (List.mem_cons_of_mem _ hq)) hend
        omega
      · omega

/-! Round guard facts of handleTrainLoop. -/

theorem loopRound_handleTrainLoop_pos (l : Learner) (m : Message) (env : Env)
    (hg : m.LoopRound = 0 ∨ m.LoopRound = succ64 l.loopRound) :
    (handleTrainLoop l m env).state.loopRound = m.LoopRound := by
  simp only [handleTrainLoop]
  rw [if_pos hg]
  split
  all_goals rfl

theorem handleTrainLoop_noop (l : Learner) (m : Message) (env : Env)
    (hg : ¬(m.LoopRound = 0 ∨ m.LoopRound = succ64 l.loopRound)) :
    handleTrainLoop l m env = ⟨l, [], .ok none⟩ := by
  simp only [handleTrainLoop]
  rw [if_neg hg]

/-! Claim C1. -/

/-- Claim C1 counterexample: a lifetime in which two transitions fail (the
PSI encryption of sample ids fails on two successive MsgPsiEnc messages)
makes two SaveResult calls on the Result port, not exactly one. -/
theorem two_failing_transitions_two_saveResults :
    saveCount (runTrace lcStart
      [(msgOf .MsgPsiEnc, envBase), (msgOf .MsgPsiEnc, envBase)]).2 = 2 := by rfl

/-- Claim C1 (amended): one call of advance makes at most one SaveResult
call, and every error return of advance makes exactly one; a lifetime
therefore makes one SaveResult call per failing transition plus the one of
a successful MsgTrainModels, so SaveResult is not called exactly once when
several transitions fail. -/
theorem advance_saveResult_per_step (l : Learner) (m : Message) (env : Env) :
    saveCount (advance l m env).effects ≤ 1 ∧
    (isErr (advance l m env).output = true →
      saveCount (advance l m env).effects = 1) :=
  advance_saveCount l m env

/-- Witness for the amended claim C1 at a concrete failing transition. -/
theorem advance_saveResult_per_step_witness :
    saveCount (advance lcStart (msgOf .MsgPsiEnc) envBase).effects = 1 :=
  (advance_saveResult_per_step lcStart (msgOf .MsgPsiEnc) envBase).2 rfl

/-! Claim C2. -/

/-- Claim C2 counterexample: from a reachable state with status StartTrain,
a duplicate MsgPsiIntersect whose IntersectParts call reports done again
sets status back to EndPSI, an earlier element of the chain. -/
theorem duplicate_psiIntersect_moves_status_backward :
    lcStartTrain.status = .startTrain ∧
    (advance lcStartTrain (msgOf .MsgPsiIntersect) envIntersectDone).state.status =
      .endPSI ∧
    statusIdx (advance lcStartTrain (msgOf .MsgPsiIntersect) envIntersectDone).state.status <
      statusIdx lcStartTrain.status := by
  refine ⟨rfl, rfl, by decide⟩

/-- Claim C2 (amended): every transition of advance other than
MsgPsiIntersect moves the status forward along the chain StartPSI, EndPSI,
StartTrain, EndTrain or leaves it unchanged; MsgPsiIntersect however sets
status to EndPSI whenever IntersectParts reports done, whatever the current
status, so a duplicate after training has started moves status backward. -/
theorem status_forward_unless_psiIntersect (l : Learner) (m : Message) (env : Env) :
    (m.mType ≠ .MsgPsiIntersect →
      statusIdx l.status ≤ statusIdx (advance l m env).state.status) ∧
    (∀ rows, m.mType = .MsgPsiIntersect → env.intersectParts = .ok (true, rows) →
      (advance l m env).state.status = .endPSI) := by
  constructor
  · exact advance_statusIdx_mono l m env
  · intro rows hm hdone
    obtain ⟨mt, mf, mto, mr, mrq, mrs, mhk, mpb, meg, mec, mgb, mcb, mst⟩ := m
    dsimp only at hm
    subst hm
    dsimp only [advance]
    simp [handlePsiIntersect, hdone]

/-- Witness for the amended claim C2 at a concrete non PSI transition. -/
theorem status_forward_unless_psiIntersect_witness :
    statusIdx lcStartTrain.status ≤
      statusIdx (advance lcStartTrain (msgOf .MsgTrainModels) envModelsOk).state.status :=
  (status_forward_unless_psiIntersect lcStartTrain (msgOf .MsgTrainModels) envModelsOk).1
    (by decide)

/-! Claim C3. -/

/-- Claim C3: a wire training message of type MsgTrainPartBytes,
MsgTrainEncGradCost, MsgTrainGradAndCost or MsgTrainStatus whose loopRound
is neither the current loopRound nor its successor leaves the Learner state
untouched, produces no effect at all (no local message, no process or psi
mutation, no SaveResult), and returns the plain task id response with a nil
error. -/
theorem wire_round_outside_window_noop (l : Learner) (m : Message) (env : Env)
    (ht : m.mType = .MsgTrainPartBytes ∨ m.mType = .MsgTrainEncGradCost ∨
          m.mType = .MsgTrainGradAndCost ∨ m.mType = .MsgTrainStatus)
    (h1 : m.LoopRound ≠ l.loopRound) (h2 : m.LoopRound ≠ succ64 l.loopRound) :
    advance l m env = ⟨l, [], .ok (some { TaskID := l.id })⟩ := by
  obtain ⟨mt, mf, mto, mr, mrq, mrs, mhk, mpb, meg, mec, mgb, mcb, mst⟩ := m
  dsimp only at ht h1 h2
  rcases ht with h | h | h | h <;> subst h <;> dsimp only [advance]
  · simp [handleTrainPartBytes, h1, h2]
  · simp [handleTrainEncGradCost, h1]
  · simp [handleTrainGradAndCost, h1]
  · simp [handleTrainStatus, h1]

/-- Witness for claim C3: a MsgTrainPartBytes for round 5 at a Learner in
round 0 is a complete no-op apart from the task id response. -/
theorem wire_round_outside_window_noop_witness :
    advance lcStart mPartBytes5 envBase =
      ⟨lcStart, [], .ok (some { TaskID := "task1" })⟩ :=
  wire_round_outside_window_noop lcStart mPartBytes5 envBase (Or.inl rfl)
    (by decide) (by decide)

/-! Claim C4. -/

/-- Claim C4: a MsgTrainLoop with round r changes loopRound only when r is 0
or the successor of loopRound, in which case loopRound becomes r; when the
accepted round is the successor it advances by exactly one, and any accepted
nonzero round never decreases loopRound. -/
theorem trainLoop_round_guard (l : Learner) (m : Message) (env : Env)
    (hm : m.mType = .MsgTrainLoop) (hw : l.loopRound < 2 ^ 64) :
    ((advance l m env).state.loopRound ≠ l.loopRound →
      (m.LoopRound = 0 ∨ m.LoopRound = succ64 l.loopRound) ∧
      (advance l m env).state.loopRound = m.LoopRound) ∧
    ((m.LoopRound = 0 ∨ m.LoopRound = succ64 l.loopRound) →
      (advance l m env).state.loopRound = m.LoopRound) ∧
    (m.LoopRound ≠ 0 → l.loopRound ≤ (advance l m env).state.loopRound) := by
  obtain ⟨mt, mf, mto, mr, mrq, mrs, mhk, mpb, meg, mec, mgb, mcb, mst⟩ := m
  dsimp only at hm
  subst hm
  dsimp only [advance]
  refine ⟨?_, ?_, ?_⟩
  · intro hch
    by_cases hg : mr = 0 ∨ mr = succ64 l.loopRound
    · exact ⟨hg, loopRound_handleTrainLoop_pos l _ env hg⟩
    · rw [handleTrainLoop_noop l _ env hg] at hch
      exact absurd rfl hch
  · intro hg
    exact loopRound_handleTrainLoop_pos l _ env hg
  · intro hr0
    by_cases hg : mr = 0 ∨ mr = succ64 l.loopRound
    · rw [loopRound_handleTrainLoop_pos l _ env hg]
      rcases hg with h0 | hsucc
      · exact absurd h0 hr0
      · have h64 : (2 : Nat) ^ 64 = 18446744073709551616 := by norm_num
        rw [hsucc] at hr0 ⊢
        simp only [succ64, h64] at hw hr0 ⊢
        omega
    · rw [handleTrainLoop_noop l _ env hg]

/-- Witness for claim C4: round 1 is the successor of round 0 and is
accepted, setting loopRound to 1. -/
theorem trainLoop_round_guard_witness :
    (advance lcStart mTrainLoop1 envUpOk).state.loopRound = 1 := by
  have h := (trainLoop_round_guard lcStart mTrainLoop1 envUpOk rfl
    (by decide)).2.1 (Or.inr (by decide))
  exact h

/-! Claim C5. -/

/-- Claim C5 counterexample: after a successful MsgTrainModels, a duplicate
peer PSI exchange resets the status to EndPSI, the training handup fires
again and a second MsgTrainModels reports success again: two successful
model reports in one lifetime, refuting the at-most-one-success clause. -/
theorem two_successful_model_reports :
    successSaveCount (runTrace lcStart traceTwoSuccess).2 = 2 := by rfl

/-- Claim C5 (amended): MsgTrainModels has an effect only when status is
StartTrain, setting status to EndTrain and, when model extraction succeeds,
calling SaveResult with Success true and the extracted model; for any other
status the state is unchanged and SaveResult is not called; and at most one
successful model report occurs in any lifetime that contains no
MsgPsiIntersect step, the only transition able to move status backward. -/
theorem trainModels_guarded (l : Learner) (m : Message) (env : Env) (model : Bytes)
    (l0 : Learner) (trace : List (Message × Env)) :
    (m.mType = .MsgTrainModels → l.status = .startTrain →
      env.getTrainModels = .ok model →
      advance l m env =
        ⟨{ l with status := LearnerStatus.endTrain },
          [.saveResult { TaskID := l.id, Success := true, Model := model }],
          .ok none⟩) ∧
    (m.mType = .MsgTrainModels → l.status ≠ .startTrain →
      advance l m env = ⟨l, [], .ok none⟩) ∧
    ((∀ p ∈ trace, p.1.mType ≠ .MsgPsiIntersect) →
      successSaveCount (runTrace l0 trace).2 ≤ 1) := by
  refine ⟨?_, ?_, ?_⟩
  · intro hm hs hg
    obtain ⟨mt, mf, mto, mr, mrq, mrs, mhk, mpb, meg, mec, mgb, mcb, mst⟩ := m
    dsimp only at hm
    subst hm
    dsimp only [advance]
    exact handleTrainModels_ok l env model hs hg
  · intro hm hs
    obtain ⟨mt, mf, mto, mr, mrq, mrs, mhk, mpb, meg, mec, mgb, mcb, mst⟩ := m
    dsimp only at hm
    subst hm
    dsimp only [advance]
    exact handleTrainModels_noop l env hs
  · exact runTrace_successSave_le_one trace l0

/-- Witness for the amended claim C5: a MsgTrainModels at status StartTrain
with a successful extraction reports the model once. -/
theorem trainModels_guarded_witness :
    advance lcStartTrain (msgOf .MsgTrainModels) envModelsOk =
      ⟨{ lcStartTrain with status := LearnerStatus.endTrain },
        [.saveResult { TaskID := "task1", Success := true, Model := [7] }],
        .ok none⟩ :=
  (trainModels_guarded lcStartTrain (msgOf .MsgTrainModels) envModelsOk [7]
    lcStart []).1 rfl rfl rfl

/-! Claim C6. -/

/-- Claim C6: sendMessageWithRetry makes at most 3 sendMessage attempts,
returns the response of the first attempt that succeeds without making any
further attempt, and when all 3 attempts fail returns the error of the
third. -/
theorem sendMessageWithRetry_spec (send : Nat → Except Err Message) :
    (sendMessageWithRetry send).2 ≤ 3 ∧
    (∀ m, send 0 = .ok m → sendMessageWithRetry send = (.ok m, 1)) ∧
    (∀ e0 m, send 0 = .error e0 → send 1 = .ok m →
      sendMessageWithRetry send = (.ok m, 2)) ∧
    (∀ e0 e1 m, send 0 = .error e0 → send 1 = .error e1 → send 2 = .ok m →
      sendMessageWithRetry send = (.ok m, 3)) ∧
    (∀ e0 e1 e2, send 0 = .error e0 → send 1 = .error e1 → send 2 = .error e2 →
      sendMessageWithRetry send = (.error e2, 3)) := by
  refine ⟨?_, ?_, ?_, ?_, ?_⟩
  · rcases h0 : send 0 with e0 | m0
    · rcases h1 : send 1 with e1 | m1
      · rcases h2 : send 2 with e2 | m2
        · simp [sendMessageWithRetry, retryFrom, h0, h1, h2]
        · simp [sendMessageWithRetry, retryFrom, h0, h1, h2]
      · simp [sendMessageWithRetry, retryFrom, h0, h1]
    · simp [sendMessageWithRetry, retryFrom, h0]
  · intro m h0
    simp [sendMessageWithRetry, retryFrom, h0]
  · intro e0 m h0 h1
    simp [sendMessageWithRetry, retryFrom, h0, h1]
  · intro e0 e1 m h0 h1 h2
    simp [sendMessageWithRetry, retryFrom, h0, h1, h2]
  · intro e0 e1 e2 h0 h1 h2
    simp [sendMessageWithRetry, retryFrom, h0, h1, h2]

/-- Witness for claim C6: with a first failing attempt and a succeeding
second one, the retry loop returns the second response after 2 attempts. -/
theorem sendMessageWithRetry_spec_witness :
    sendMessageWithRetry sendFlakyOnce = (.ok {}, 2) :=
  (sendMessageWithRetry_spec sendFlakyOnce).2.2.1 { msg := "flake" } {} rfl rfl

/-! Claim C7. -/

/-- Claim C7 counterexample: a well-formed message whose type discriminator
is none of the enumerated ones is silently ignored: advance returns a nil
response with a nil error, makes no SaveResult call and leaves the state
unchanged, instead of failing with a Param error posted to the Result
port. -/
theorem unknown_type_is_silently_ignored :
    advance lcStart (msgOf .MsgOther) envBase = ⟨lcStart, [], .ok none⟩ := rfl

/-- Claim C7 (amended): a payload that fails to deserialize makes Advance
return a Param error with no effect on the state and no SaveResult call,
the error being returned to the caller and not posted to the Result port;
a well-formed message with an unrecognized type is silently ignored with a
nil error, a nil response, no effect and no SaveResult call. -/
theorem advance_malformed_and_unknown (l : Learner) (env : Env) (payload : Bytes)
    (m : Message) :
    (∀ s, env.unmarshal payload = .error s →
      Advance l payload env =
        ⟨l, [], .error { code := .param,
                         msg := "failed to Unmarshal payload: " ++ s }⟩) ∧
    (m.mType = .MsgOther → advance l m env = ⟨l, [], .ok none⟩) := by
  constructor
  · intro s hs
    simp [Advance, hs]
  · intro hm
    obtain ⟨mt, mf, mto, mr, mrq, mrs, mhk, mpb, meg, mec, mgb, mcb, mst⟩ := m
    dsimp only at hm
    subst hm
    rfl

/-- Witness for the amended claim C7 at a concrete undecodable payload. -/
theorem advance_malformed_and_unknown_witness :
    Advance lcStart [] envBase =
      ⟨lcStart, [],
        .error { code := .param,
                 msg := "failed to Unmarshal payload: bad payload" }⟩ :=
  (advance_malformed_and_unknown lcStart envBase [] (msgOf .MsgOther)).1
    "bad payload" rfl

/-! Claim C8. -/

/-- Claim C8: when ReEncryptIDSet succeeds on an inbound MsgPsiReEnc,
advance returns a response whose payload is the marshalled MsgPsiReEnc
reply carrying the task id and exactly the re-encrypted bytes, the same
bytes are fed to SetOtherFinalReEncryptIDSet, and a local MsgPsiIntersect
is posted when that call succeeds. -/
theorem psiReEnc_response_and_feedback (l : Learner) (m : Message) (env : Env)
    (reEncIDs payload : Bytes)
    (hm : m.mType = .MsgPsiReEnc)
    (hre : env.reEncryptIDSet m.From m.VlLPsiReEncIDsReq.EncIDs = .ok reEncIDs)
    (hmar : env.marshal
      { mType := .MsgPsiReEnc, To := m.From, From := l.address,
        VlLPsiReEncIDsResp := { TaskID := l.id, ReEncIDs := reEncIDs } } =
      .ok payload) :
    (advance l m env).output = .ok (some { TaskID := l.id, Payload := payload }) ∧
    Effect.psiSetOtherFinal m.From reEncIDs ∈ (advance l m env).effects ∧
    (env.setOtherFinalReEncryptIDSet m.From reEncIDs = .ok () →
      Effect.enqueue { mType := .MsgPsiIntersect } ∈ (advance l m env).effects) := by
  obtain ⟨mt, mf, mto, mr, mrq, mrs, mhk, mpb, meg, mec, mgb, mcb, mst⟩ := m
  dsimp only at hm hre hmar ⊢
  subst hm
  dsimp only [advance]
  simp only [handlePsiReEnc, hre, hmar]
  cases hof : env.setOtherFinalReEncryptIDSet mf reEncIDs with
  | error e => simp [hof]
  | ok u =>
      cases u
      simp [hof]

/-- Witness for claim C8 at a concrete inbound MsgPsiReEnc. -/
theorem psiReEnc_response_and_feedback_witness :
    (advance lcStart mPsiReEncW envReEncOk).output =
      .ok (some { TaskID := "task1", Payload := [4, 2] }) ∧
    Effect.psiSetOtherFinal "addrB" [9, 9] ∈
      (advance lcStart mPsiReEncW envReEncOk).effects ∧
    (envReEncOk.setOtherFinalReEncryptIDSet "addrB" [9, 9] = .ok () →
      Effect.enqueue { mType := .MsgPsiIntersect } ∈
        (advance lcStart mPsiReEncW envReEncOk).effects) := by
  have h := psiReEnc_response_and_feedback lcStart mPsiReEncW envReEncOk
    [9, 9] [4, 2] rfl rfl rfl
  exact h

/-! Claim C9. -/

/-- Claim C9: each of the five inbound wire handlers MsgHomoPubkey,
MsgTrainPartBytes, MsgTrainEncGradCost, MsgTrainGradAndCost and
MsgTrainStatus, whenever it completes without error, returns a response
carrying the task id of the Learner, also when the round of the message was
outside the acceptance window and the message had no effect. -/
theorem wire_handlers_respond_with_taskid (l : Learner) (m : Message) (env : Env)
    (r : Option TrainResponse)
    (ht : m.mType = .MsgHomoPubkey ∨ m.mType = .MsgTrainPartBytes ∨
          m.mType = .MsgTrainEncGradCost ∨ m.mType = .MsgTrainGradAndCost ∨
          m.mType = .MsgTrainStatus)
    (hout : (advance l m env).output = .ok r) :
    ∃ resp, r = some resp ∧ resp.TaskID = l.id := by
  obtain ⟨mt, mf, mto, mr, mrq, mrs, mhk, mpb, meg, mec, mgb, mcb, mst⟩ := m
  dsimp only at ht hout
  rcases ht with h | h | h | h | h <;> subst h <;> dsimp only [advance] at hout <;>
    simp only [handleHomoPubkey, handleTrainPartBytes, handleTrainEncGradCost,
      handleTrainGradAndCost, handleTrainStatus] at hout <;>
    repeat' split at hout
  all_goals first
    | exact Except.noConfusion hout
    | (refine ⟨{ TaskID := l.id }, ?_, rfl⟩
       injection hout with h
       exact h.symm)

/-- Witness for claim C9 at a concrete inbound MsgHomoPubkey. -/
theorem wire_handlers_respond_with_taskid_witness :
    ∃ resp, some ({ TaskID := "task1" } : TrainResponse) = some resp ∧
      resp.TaskID = lcStart.id :=
  wire_handlers_respond_with_taskid lcStart (msgOf .MsgHomoPubkey) envBase
    (some { TaskID := "task1" }) (Or.inl rfl) rfl

/-! Claim C10. -/

/-- Claim C10: PadStart returns its argument unchanged when the bytes are
already at least newLen long, and otherwise returns a slice of length
exactly newLen whose leading bytes are zeros and whose trailing bytes are
the original slice. -/
theorem PadStart_spec (s : List Nat) (newLen : Int) :
    ((s.length : Int) ≥ newLen → PadStart s newLen = s) ∧
    ((s.length : Int) < newLen →
      ((PadStart s newLen).length : Int) = newLen ∧
      (PadStart s newLen).take (newLen - (s.length : Int)).toNat =
        List.replicate (newLen - (s.length : Int)).toNat 0 ∧
      (PadStart s newLen).drop (newLen - (s.length : Int)).toNat = s) := by
  constructor
  · intro h
    simp [PadStart, h]
  · intro h
    have hif : ¬((s.length : Int) ≥ newLen) := not_le.mpr h
    simp only [PadStart, if_neg hif]
    refine ⟨?_, ?_, ?_⟩
    · rw [List.length_append, List.length_replicate]
      have hnn : (0 : Int) ≤ newLen - (s.length : Int) := by omega
      push_cast
      rw [Int.toNat_of_nonneg hnn]
      ring
    · exact List.take_left' (List.length_replicate _ _)
    · exact List.drop_left' (List.length_replicate _ _)

/-- Witness for claim C10: padding the single byte 5 to length 3 prepends
two zeros. -/
theorem PadStart_spec_witness :
    ((PadStart [5] 3).length : Int) = 3 ∧
    (PadStart [5] 3).take 2 = List.replicate 2 0 ∧
    (PadStart [5] 3).drop 2 = [5] := by
  have h := (PadStart_spec [5] 3).2 (by decide)
  exact h

end PaddleDTX
